import Mathlib

/-!
Shallow embedding of the authentication / OAuth2 identity subsystem of the
`sln-todo-angular-fastapi-sqlalchemy-alembic` backend
(`backend/app/core/security.py`, `backend/app/services/auth_service.py`,
`backend/app/services/oauth_service.py`,
`backend/app/db/repositories/user_repository.py`), together with theorems
checking the natural-language specification against it.

Conventions of the embedding:
* the database session is a `List User` passed and returned explicitly;
* SQLAlchemy `select ... where` lookups become `List.find?`;
* Python truthiness of an optional string (`if x:`) is `pyTruthy`;
* UUID primary keys are modelled as `Nat`;
* wall-clock instants (`datetime.utcnow()`) are an explicit `Int` of unix
  seconds threaded into the functions that read the clock;
* fallible operations (`raise ValueError`, `raise JWTError`) return `Except`.
-/

deriving instance DecidableEq for Except

namespace TodoAuth

/-- Truthiness of an optional string, as Python evaluates `if x:` for a value
that is either `None` or a `str`: `None` and the empty string are falsy. -/
def pyTruthy : Option String → Bool
  | none => false
  | some s => !(s == "")

/-! ## Credential hasher (`security.py` lines 14-38)

`pwd_context = CryptContext(schemes=["bcrypt"], deprecated="auto",
bcrypt__truncate_error=False)`.  The source's own comments document that with
`truncate_error=False` bcrypt truncates passwords to 72 bytes.  The bcrypt
key-derivation core is not part of the repository; it is modelled here as an
explicit `kernel` parameter (an arbitrary function of the salt and the
truncated password bytes), so every theorem states exactly which assumption
on the core (if any) it uses. -/

/-- Maximum number of password bytes bcrypt consumes; the configuration
`bcrypt__truncate_error=False` in `security.py` makes longer inputs be
truncated to this length instead of rejected. -/
def BCRYPT_MAX_BYTES : Nat := 72

/-- UTF-8 encoding of one character, written over `Nat` so that concrete
instances evaluate inside proofs (it agrees with the standard encoding). -/
def charUtf8 (c : Char) : List Nat :=
  let n := c.toNat
  if n < 128 then [n]
  else if n < 2048 then [192 + n / 64, 128 + n % 64]
  else if n < 65536 then [224 + n / 4096, 128 + (n / 64) % 64, 128 + n % 64]
  else [240 + n / 262144, 128 + (n / 4096) % 64, 128 + (n / 64) % 64,
        128 + n % 64]

/-- UTF-8 encoding of a string as a list of byte values. -/
def utf8Bytes (s : String) : List Nat := s.data.flatMap charUtf8

/-- The byte sequence bcrypt actually hashes: the UTF-8 encoding of the
password, truncated to 72 bytes (`bcrypt__truncate_error=False`). -/
def bcryptInput (password : String) : List Nat :=
  (utf8Bytes password).take BCRYPT_MAX_BYTES

/-- A parsed bcrypt credential: the salt recorded in the hash string and the
digest produced by the bcrypt core over (salt, truncated password bytes). -/
structure BcryptHash where
  salt : Nat
  digest : List Nat
deriving DecidableEq, Repr

/-- Model of `get_password_hash` (`security.py` lines 31-38): hash with a
fresh salt (the salt is a parameter here, since it is drawn at random per
call) by running the bcrypt core on the truncated password bytes. -/
def get_password_hash (kernel : Nat → List Nat → List Nat) (salt : Nat)
    (password : String) : BcryptHash :=
  { salt := salt, digest := kernel salt (bcryptInput password) }

/-- Model of `verify_password` (`security.py` lines 21-28) on an
already-parsed bcrypt credential: re-derive the digest from the stored salt
and the truncated candidate password and compare. -/
def verify_password (kernel : Nat → List Nat → List Nat)
    (plain_password : String) (hashed_password : BcryptHash) : Bool :=
  kernel hashed_password.salt (bcryptInput plain_password) == hashed_password.digest

/-- Failure modes of passlib's `CryptContext.verify` as configured in
`security.py` (the library is a dependency, not repository code; its
dispatch is modelled here because `verify_password` adds no handling of its
own): a `None` stored hash raises `TypeError`; a string no configured scheme
identifies raises `UnknownHashError`; an identified but unparseable bcrypt
string raises a malformed-hash `ValueError`. -/
inductive PasslibError where
  | noneHash
  | unknownHash
  | malformedHash
deriving DecidableEq, Repr

/-- Prefix test on character lists (an evaluable stand-in for
`str.startswith`). -/
def hasPfx (l p : List Char) : Bool := l.take p.length == p

/-- Identification step of passlib's bcrypt handler: a stored hash is
recognized as bcrypt when it carries one of the bcrypt modular-crypt
identifiers. -/
def bcryptIdent (s : String) : Bool :=
  hasPfx s.data "$2b$".data || hasPfx s.data "$2a$".data ||
  hasPfx s.data "$2y$".data || hasPfx s.data "$2x$".data ||
  hasPfx s.data "$2$".data

/-- Split a character list on a separator character. -/
def splitOnChar (c : Char) (l : List Char) : List (List Char) :=
  l.foldr
    (fun x acc =>
      match acc with
      | [] => [[x]]
      | h :: t => if x == c then [] :: h :: t else (x :: h) :: t)
    [[]]

/-- Decimal digit test over character codes. -/
def isDigitChar (c : Char) : Bool := 48 ≤ c.toNat && c.toNat ≤ 57

/-- Parse a non-empty all-digit character list as a natural number. -/
def parseNatChars (l : List Char) : Option Nat :=
  if !l.isEmpty && l.all isDigitChar then
    some (l.foldl (fun a c => a * 10 + (c.toNat - 48)) 0)
  else none

/-- Parse of a stored credential string into a `BcryptHash`.  The format is
a modular-crypt-style model: the bcrypt identifier `$2b$12$`, then the salt
and the digest bytes as decimal text; anything else yields `none` (the
malformed-hash case of passlib's bcrypt handler). -/
def bcryptDecode (s : String) : Option BcryptHash :=
  if hasPfx s.data "$2b$12$".data then
    match splitOnChar '$' (s.data.drop 7) with
    | [saltCs, digestCs] =>
      match parseNatChars saltCs with
      | some salt =>
        if digestCs.isEmpty then some { salt := salt, digest := [] }
        else
          let parts := (splitOnChar '.' digestCs).map parseNatChars
          if parts.all Option.isSome then
            some { salt := salt, digest := parts.map (fun o => o.getD 0) }
          else none
      | none => none
    | _ => none
  else none

/-- Model of the full `pwd_context.verify` call made by `verify_password`
(`security.py` line 28) on the stored credential column, which is nullable:
passlib first identifies the hash (raising on `None` or on an unrecognized
string), then parses it, then compares digests.  The repository wrapper
installs no exception handling around it. -/
def pwd_context_verify (kernel : Nat → List Nat → List Nat)
    (plain_password : String) (stored : Option String) :
    Except PasslibError Bool :=
  match stored with
  | none => .error .noneHash
  | some s =>
    if bcryptIdent s then
      match bcryptDecode s with
      | some h => .ok (verify_password kernel plain_password h)
      | none => .error .malformedHash
    else .error .unknownHash

/-! ## Token service (`security.py` lines 41-93 and `config.py`) -/

/-- Value of `settings.ALGORITHM` (`config.py`). -/
def ALGORITHM : String := "HS256"

/-- Value of `settings.ACCESS_TOKEN_EXPIRE_MINUTES` (`config.py`): 24 hours. -/
def ACCESS_TOKEN_EXPIRE_MINUTES : Int := 1440

/-- The JWT claim set built by `create_access_token`:
`{"exp": ..., "iat": ..., "sub": ..., "type": "access"}`. -/
structure JwtPayload where
  exp : Int
  iat : Int
  sub : String
  type : String
deriving DecidableEq, Repr

/-- Deterministic numeric code of a string, used by the modelled HMAC. -/
def strCode (s : String) : Nat :=
  s.data.foldl (fun a c => a * 1000003 + c.toNat) 5381

/-- Deterministic numeric code of an integer (sign folded in). -/
def intCode (i : Int) : Nat :=
  if i < 0 then 2 * i.natAbs + 1 else 2 * i.natAbs

/-- Deterministic numeric code of a claim set. -/
def payloadCode (p : JwtPayload) : Nat :=
  ((strCode p.sub * 31 + intCode p.iat) * 31 + intCode p.exp) * 31 +
    strCode p.type

/-- Numeric code of the transmitted payload segment (`none` stands for
payload bytes that do not parse as a JSON claim set). -/
def claimsCode : Option JwtPayload → Nat
  | none => 0
  | some p => payloadCode p + 1

/-- Model of the HMAC signature over header and payload: a deterministic
function of the secret, the algorithm tag and the payload segment. -/
def hmacSign (secret alg : String) (claims : Option JwtPayload) : Nat :=
  (strCode secret * 31 + strCode alg) * 31 + claimsCode claims

/-- A compact serialized JWT as received by `decode_access_token`: the header
algorithm tag, the payload segment (as its parse result, `none` when the
bytes are not a JSON claim set), and the signature. -/
structure SignedToken where
  alg : String
  claims : Option JwtPayload
  sig : Nat
deriving DecidableEq, Repr

/-- Truthiness of the optional timedelta argument, as Python evaluates
`if expires_delta:`: `None` and `timedelta(0)` are both falsy. -/
def pyTruthyDelta : Option Int → Bool
  | none => false
  | some d => !(d == 0)

/-- Model of `create_access_token` (`security.py` lines 41-72): the source
branches on `if expires_delta:` (Python truthiness, so a zero timedelta
falls through to the default), setting expiry to `now + expires_delta` in
the truthy branch and `now` plus the configured default otherwise; the
claim set is signed with the process-wide secret under `settings.ALGORITHM`.
`now` is the value of `datetime.utcnow()` in unix seconds; `expires_delta`
is the timedelta in seconds. -/
def create_access_token (secret : String) (now : Int) (subject : String)
    (expires_delta : Option Int) : SignedToken :=
  let expire : Int :=
    if pyTruthyDelta expires_delta then now + expires_delta.getD 0
    else now + ACCESS_TOKEN_EXPIRE_MINUTES * 60
  let payload : JwtPayload :=
    { exp := expire, iat := now, sub := subject, type := "access" }
  { alg := ALGORITHM, claims := some payload,
    sig := hmacSign secret ALGORITHM (some payload) }

/-- Failure kinds of `jose.jwt.decode` as called by `decode_access_token`
(`security.py` lines 75-93): header algorithm not in the allowed list,
signature mismatch, unparseable payload, and expired `exp` — raised as
distinct errors the caller can tell apart. -/
inductive JwtError where
  | algNotAllowed
  | badSignature
  | malformedPayload
  | expired
deriving DecidableEq, Repr

/-- Model of `decode_access_token` (`security.py` lines 75-93), following the
order of `jose.jwt.decode`: check the header algorithm against
`algorithms=[settings.ALGORITHM]`, verify the signature, parse the claim
set, then reject tokens whose `exp` is before `now`. -/
def decode_access_token (secret : String) (now : Int) (token : SignedToken) :
    Except JwtError JwtPayload :=
  if token.alg != ALGORITHM then .error .algNotAllowed
  else if token.sig != hmacSign secret token.alg token.claims then
    .error .badSignature
  else
    match token.claims with
    | none => .error .malformedPayload
    | some p => if p.exp < now then .error .expired else .ok p

/-! ## User model and repository (`db/models/user.py`,
`db/repositories/user_repository.py`, `db/repositories/base_repository.py`)

The `users` table row; `hashed_password`, `full_name`, `oauth_provider`,
`oauth_id` and `avatar_url` are nullable columns.  The UUID primary key is
modelled as a `Nat`; a database session is a `List User`. -/

structure User where
  id : Nat
  email : String
  hashed_password : Option String
  full_name : Option String
  is_active : Bool
  is_superuser : Bool
  oauth_provider : Option String
  oauth_id : Option String
  avatar_url : Option String
deriving DecidableEq, Repr

/-- A database session: the rows of the `users` table. -/
abbrev Db := List User

/-- `BaseRepository.get`: `select(User).where(User.id == id)`. -/
def getUser (db : Db) (id : Nat) : Option User :=
  db.find? (fun u => u.id == id)

/-- `UserRepository.get_by_email`: `select(User).where(User.email == email)`. -/
def get_by_email (db : Db) (email : String) : Option User :=
  db.find? (fun u => u.email == email)

/-- `UserRepository.get_active_by_email`:
`select(User).where(User.email == email, User.is_active == True)`. -/
def get_active_by_email (db : Db) (email : String) : Option User :=
  db.find? (fun u => u.email == email && u.is_active)

/-- `UserRepository.get_by_oauth`: `select(User).where(User.oauth_provider ==
provider, User.oauth_id == oauth_id)`. -/
def get_by_oauth (db : Db) (provider oauth_id : String) : Option User :=
  db.find? (fun u => u.oauth_provider == some provider &&
                     u.oauth_id == some oauth_id)

/-- Fresh primary key for an inserted row (the source draws a fresh UUID;
here: one more than the largest id in the session). -/
def freshId (db : Db) : Nat :=
  db.foldl (fun a u => max a u.id) 0 + 1

/-- `UserRepository.create_oauth_user` (`user_repository.py` lines 72-93):
insert a user with the given fields, `is_active=True`, `is_superuser=False`,
and no `hashed_password`.  Returns the new row and the updated session. -/
def create_oauth_user (db : Db) (email : String) (full_name : Option String)
    (oauth_provider oauth_id : String) (avatar_url : Option String) :
    User × Db :=
  let user : User :=
    { id := freshId db, email := email, hashed_password := none,
      full_name := full_name, is_active := true, is_superuser := false,
      oauth_provider := some oauth_provider, oauth_id := some oauth_id,
      avatar_url := avatar_url }
  (user, db ++ [user])

/-- In-place mutation of the ORM row with primary key `uid` followed by
`commit`: the session keeps every other row and stores the new value. -/
def replaceUser (db : Db) (uid : Nat) (u' : User) : Db :=
  db.map (fun v => if v.id == uid then u' else v)

/-! ## Auth facade (`services/auth_service.py`) -/

/-- Model of `AuthService.authenticate_user` (`auth_service.py` lines
23-32): resolve the active user by email, then check the password against
the stored (nullable) credential.  The password check is a parameter `vp`
standing for `verify_password` on the stored column, so the theorems about
this function hold for any credential checker. -/
def authenticate_user (vp : String → Option String → Bool) (db : Db)
    (email password : String) : Option User :=
  match get_active_by_email db email with
  | none => none
  | some user => if vp password user.hashed_password then some user else none

/-! ## OAuth2 flow engine and identity reconciler (`services/oauth_service.py`) -/

/-- `OAuth2UserInfo` (`api/schemas/oauth.py` lines 35-41): the normalized
provider-agnostic user info; `id`, `email` and `provider` are required
strings, `name` and `picture` optional. -/
structure OAuth2UserInfo where
  id : String
  email : String
  name : Option String
  picture : Option String
  provider : String
deriving DecidableEq, Repr

/-- The field mutation both `authenticate_or_create_user` (link-by-email
branch) and `link_oauth_account` perform on a user: set `oauth_provider` and
`oauth_id`, and overwrite `avatar_url` only when `picture` is truthy. -/
def applyLink (u : User) (info : OAuth2UserInfo) : User :=
  { u with oauth_provider := some info.provider, oauth_id := some info.id,
           avatar_url := if pyTruthy info.picture then info.picture
                         else u.avatar_url }

/-- Model of `OAuth2Service.authenticate_or_create_user` (`oauth_service.py`
lines 210-253), reconciliation order as in the source: find by
`(provider, id)` and return unchanged; else, when the email is truthy, find
by email and link in place; else create a new OAuth user.  Returns the
resolved user and the updated session (token issuance is elided). -/
def authenticate_or_create_user (db : Db) (info : OAuth2UserInfo) :
    User × Db :=
  match get_by_oauth db info.provider info.id with
  | some user => (user, db)
  | none =>
    match (if !(info.email == "") then get_by_email db info.email else none) with
    | some user =>
      let linked := applyLink user info
      (linked, replaceUser db user.id linked)
    | none =>
      create_oauth_user db info.email info.name info.provider info.id
        info.picture

/-- The `ValueError`s raised by `link_oauth_account` and
`unlink_oauth_account` (`oauth_service.py` lines 255-323). -/
inductive OAuthError where
  | userNotFound
  | alreadyLinkedElsewhere
  | providerNotLinked
  | noPasswordSet
deriving DecidableEq, Repr

/-- Model of `OAuth2Service.link_oauth_account` (`oauth_service.py` lines
255-290): resolve the user, refuse when another user already holds the
`(provider, id)` pair, else apply the link mutation and commit. -/
def link_oauth_account (db : Db) (user_id : Nat) (info : OAuth2UserInfo) :
    Except OAuthError (User × Db) :=
  match getUser db user_id with
  | none => .error .userNotFound
  | some user =>
    match get_by_oauth db info.provider info.id with
    | some existing_user =>
      if existing_user.id != user_id then .error .alreadyLinkedElsewhere
      else
        let linked := applyLink user info
        .ok (linked, replaceUser db user.id linked)
    | none =>
      let linked := applyLink user info
      .ok (linked, replaceUser db user.id linked)

/-- Model of `OAuth2Service.unlink_oauth_account` (`oauth_service.py` lines
292-323): resolve the user, refuse when the linked provider differs from the
requested one, refuse when the user has no (truthy) password credential,
else clear `oauth_provider` and `oauth_id` and commit. -/
def unlink_oauth_account (db : Db) (user_id : Nat) (provider : String) :
    Except OAuthError (User × Db) :=
  match getUser db user_id with
  | none => .error .userNotFound
  | some user =>
    if user.oauth_provider != some provider then .error .providerNotLinked
    else if !(pyTruthy user.hashed_password) then .error .noPasswordSet
    else
      let cleared : User :=
        { user with oauth_provider := none, oauth_id := none }
      .ok (cleared, replaceUser db user.id cleared)

/-! ## GitHub user-info normalization (`oauth_service.py` lines 146-208)

`get_user_info` opens an `httpx.AsyncClient` in an `async with` block that
contains only the first user-info request (lines 160-166); the
provider-specific normalization below the block reuses the now-closed
`client` for GitHub's email-list call (line 181).  The embedding keeps the
client's open/closed state explicit. -/

/-- The GitHub `/user` response fields the code reads. -/
structure GithubUserData where
  id : Nat
  email : Option String
  name : Option String
  avatar_url : Option String
deriving DecidableEq, Repr

/-- One entry of GitHub's `/user/emails` response. -/
structure GithubEmailEntry where
  email : String
  primary : Bool
deriving DecidableEq, Repr

/-- The failure a request on a closed `httpx.AsyncClient` raises
(`RuntimeError: Cannot send a request, as the client has been closed.`). -/
inductive FetchError where
  | clientClosed
deriving DecidableEq, Repr

/-- State of an `httpx.AsyncClient`. -/
structure AsyncClient where
  is_closed : Bool
deriving DecidableEq, Repr

/-- A GET on an `httpx.AsyncClient`: raises when the client is closed, else
yields the response body (the body is a parameter, the network is not
modelled). -/
def clientGet {α : Type} (client : AsyncClient) (body : α) :
    Except FetchError α :=
  if client.is_closed then .error .clientClosed else .ok body

/-- Model of the GitHub branch of `OAuth2Service.get_user_info`
(`oauth_service.py` lines 177-198), entered after the `async with` block has
exited: when the `/user` response lacks a truthy email, the code issues the
email-list request on the closed client; otherwise it normalizes directly,
coercing the numeric GitHub id to a string.  `emails_body` is the body the
email-list endpoint would return. -/
def get_user_info_github (user_data : GithubUserData)
    (emails_body : List GithubEmailEntry) :
    Except FetchError OAuth2UserInfo :=
  let client : AsyncClient := { is_closed := true }
  let email := user_data.email
  if pyTruthy email then
    .ok { id := toString user_data.id, email := email.getD "",
          name := user_data.name, picture := user_data.avatar_url,
          provider := "github" }
  else
    match clientGet client emails_body with
    | .error e => .error e
    | .ok emails =>
      let primary_email :=
        match emails.find? (fun e => e.primary) with
        | some e => some e
        | none => emails.head?
      let email2 := primary_email.map (fun e => e.email)
      .ok { id := toString user_data.id, email := email2.getD "",
            name := user_data.name, picture := user_data.avatar_url,
            provider := "github" }

/-! ## The `(oauth_provider, oauth_id)` uniqueness invariant -/

/-- `u` holds exactly the present pair `(provider, oauth_id)`. -/
def hasPair (u : User) (provider oauth_id : String) : Bool :=
  u.oauth_provider == some provider && u.oauth_id == some oauth_id

/-- Two users hold the same present `(oauth_provider, oauth_id)` pair. -/
def samePresentPair (u v : User) : Bool :=
  match u.oauth_provider, u.oauth_id with
  | some p, some i => hasPair v p i
  | _, _ => false

/-- The invariant: no two distinct rows share a present
`(oauth_provider, oauth_id)` pair. -/
def oauthUnique (db : Db) : Prop :=
  db.Pairwise (fun u v => samePresentPair u v = false)

/-- Primary keys are distinct across rows (database primary-key constraint). -/
def idsUnique (db : Db) : Prop :=
  db.Pairwise (fun u v => u.id ≠ v.id)

instance (db : Db) : Decidable (oauthUnique db) :=
  inferInstanceAs (Decidable (db.Pairwise _))

instance (db : Db) : Decidable (idsUnique db) :=
  inferInstanceAs (Decidable (db.Pairwise _))

/-! # Theorems -/

/-- A concrete bcrypt core used to instantiate theorems whose statements are
parametric in the core: it pairs the salt with the truncated input, so it is
injective for a fixed salt. -/
def kernel0 : Nat → List Nat → List Nat := fun salt input => salt :: input

/-- A 73-byte password: 72 copies of `a` followed by `b`. -/
def longPwdA : String := String.mk (List.replicate 72 'a' ++ ['b'])

/-- A 73-byte password: 72 copies of `a` followed by `c`. -/
def longPwdB : String := String.mk (List.replicate 72 'a' ++ ['c'])

/-- A database with one active user holding a password credential. -/
def dbActive : Db :=
  [{ id := 1, email := "a@x", hashed_password := some "h", full_name := none,
     is_active := true, is_superuser := false, oauth_provider := none,
     oauth_id := none, avatar_url := none }]

/-- The same user, deactivated. -/
def dbInactive : Db :=
  [{ id := 1, email := "a@x", hashed_password := some "h", full_name := none,
     is_active := false, is_superuser := false, oauth_provider := none,
     oauth_id := none, avatar_url := none }]

/-- A database with one user linked to GitHub who also has a password. -/
def dbLinked : Db :=
  [{ id := 1, email := "a@x", hashed_password := some "h",
     full_name := some "A", is_active := true, is_superuser := false,
     oauth_provider := some "github", oauth_id := some "42",
     avatar_url := some "av" }]

/-- The same user with no password credential. -/
def dbLinkedNoPw : Db :=
  [{ id := 1, email := "a@x", hashed_password := none,
     full_name := some "A", is_active := true, is_superuser := false,
     oauth_provider := some "github", oauth_id := some "42",
     avatar_url := some "av" }]

/-- The single user of `dbLinked`. -/
def u0 : User :=
  { id := 1, email := "a@x", hashed_password := some "h",
    full_name := some "A", is_active := true, is_superuser := false,
    oauth_provider := some "github", oauth_id := some "42",
    avatar_url := some "av" }

/-- Normalized info for the GitHub identity `42` with no picture. -/
def infoNoPic : OAuth2UserInfo :=
  { id := "42", email := "a@x", name := none, picture := none,
    provider := "github" }

/-- Normalized info for a Google identity whose email matches `dbActive`'s
password-only user. -/
def infoGoogle : OAuth2UserInfo :=
  { id := "99", email := "a@x", name := some "Al", picture := some "pic",
    provider := "google" }

/-- Normalized info with an email no user holds. -/
def infoNew : OAuth2UserInfo :=
  { id := "77", email := "c@x", name := some "C", picture := none,
    provider := "google" }

/-- A session with one password-only user and one OAuth-linked user,
satisfying both uniqueness invariants. -/
def dbPair : Db :=
  [{ id := 1, email := "a@x", hashed_password := some "h",
     full_name := none, is_active := true, is_superuser := false,
     oauth_provider := none, oauth_id := none, avatar_url := none },
   { id := 2, email := "b@x", hashed_password := none, full_name := none,
     is_active := true, is_superuser := false,
     oauth_provider := some "github", oauth_id := some "42",
     avatar_url := none }]

/-- Normalized info for the GitHub pair already held by user 2 of
`dbPair`. -/
def infoTaken : OAuth2UserInfo :=
  { id := "42", email := "z@x", name := none, picture := none,
    provider := "github" }

/-- Normalized info for a pair no user of `dbPair` holds. -/
def infoFree : OAuth2UserInfo :=
  { id := "99", email := "zz@x", name := none, picture := none,
    provider := "google" }

/-- C4 counterexample: two distinct passwords that agree on their first 72
UTF-8 bytes verify against each other's hashes, because `security.py`
configures `bcrypt__truncate_error=False` and bcrypt hashes only the first
72 bytes.  So the claim "for every pair of distinct passwords `p1 != p2`,
`verify(p1, hash(p2))` returns false" fails at `p1 = 72*'a' ++ 'b'`,
`p2 = 72*'a' ++ 'c'`. -/
theorem c4_counterexample :
    longPwdA ≠ longPwdB ∧
    verify_password kernel0 longPwdA (get_password_hash kernel0 0 longPwdB)
      = true := by
  decide

/-- C4 (amended): for every bcrypt core, salt and password `p`,
`verify(p, hash(p))` is true; and for passwords `p1`, `p2` whose truncated
72-byte inputs differ, `verify(p1, hash(p2))` is false provided the core is
injective in the password bytes for a fixed salt (the collision-freeness
idealization of the hash). -/
theorem c4_hash_verify_roundtrip (kernel : Nat → List Nat → List Nat)
    (hinj : ∀ s a b, kernel s a = kernel s b → a = b)
    (salt : Nat) (p1 p2 : String) :
    verify_password kernel p1 (get_password_hash kernel salt p1) = true ∧
    (bcryptInput p1 ≠ bcryptInput p2 →
      verify_password kernel p1 (get_password_hash kernel salt p2) = false) := by
  constructor
  · simp [verify_password, get_password_hash]
  · intro hne
    simp only [verify_password, get_password_hash, beq_eq_false_iff_ne, ne_eq]
    intro heq
    exact hne (hinj _ _ _ heq)

/-- C4 witness: the amended theorem evaluated at the concrete core
`kernel0`, salt 3, and the passwords `alpha`, `beta`. -/
theorem c4_hash_verify_roundtrip_witness :
    verify_password kernel0 "alpha" (get_password_hash kernel0 3 "alpha")
      = true ∧
    verify_password kernel0 "alpha" (get_password_hash kernel0 3 "beta")
      = false := by
  have h := c4_hash_verify_roundtrip kernel0
    (fun s a b hab => by simpa [kernel0] using hab) 3 "alpha" "beta"
  exact ⟨h.1, h.2 (by decide)⟩

/-- C5 counterexample: on a stored credential that is not an identifiable
bcrypt hash, the passlib context configured in `security.py` raises
(`UnknownHashError`) instead of returning `false`, and `verify_password`
adds no handling; likewise a `None` stored hash raises `TypeError`.  So the
claim that `verify` returns a boolean and never raises fails at the stored
credential `"not-a-bcrypt-hash"`. -/
theorem c5_counterexample :
    pwd_context_verify kernel0 "pw" (some "not-a-bcrypt-hash")
      = .error .unknownHash ∧
    pwd_context_verify kernel0 "pw" (some "not-a-bcrypt-hash")
      ≠ .ok false ∧
    pwd_context_verify kernel0 "pw" none = .error .noneHash := by
  decide

/-- C5 (amended): `verify` returns a boolean only for stored credentials
that parse as bcrypt hashes; a `None` stored hash raises `TypeError`, an
unidentifiable string raises `UnknownHashError`, and an identified but
unparseable bcrypt string raises a malformed-hash error — the exception
propagates to the caller, `false` is not returned. -/
theorem c5_verify_malformed_raises (kernel : Nat → List Nat → List Nat)
    (p : String) :
    pwd_context_verify kernel p none = .error .noneHash ∧
    (∀ s, bcryptIdent s = false →
      pwd_context_verify kernel p (some s) = .error .unknownHash) ∧
    (∀ s, bcryptIdent s = true → bcryptDecode s = none →
      pwd_context_verify kernel p (some s) = .error .malformedHash) ∧
    (∀ s h, bcryptIdent s = true → bcryptDecode s = some h →
      pwd_context_verify kernel p (some s)
        = .ok (verify_password kernel p h)) := by
  refine ⟨rfl, ?_, ?_, ?_⟩
  · intro s hs
    simp [pwd_context_verify, hs]
  · intro s hs hd
    simp [pwd_context_verify, hs, hd]
  · intro s h hs hd
    simp [pwd_context_verify, hs, hd]

/-- C5 witness: the amended theorem evaluated at concrete stored
credentials of each shape. -/
theorem c5_verify_malformed_raises_witness :
    pwd_context_verify kernel0 "pw" none = .error .noneHash ∧
    pwd_context_verify kernel0 "pw" (some "zzz") = .error .unknownHash ∧
    pwd_context_verify kernel0 "pw" (some "$2b$12$oops")
      = .error .malformedHash ∧
    pwd_context_verify kernel0 "pw" (some "$2b$12$5$1.2")
      = .ok (verify_password kernel0 "pw" { salt := 5, digest := [1, 2] }) := by
  have h := c5_verify_malformed_raises kernel0 "pw"
  exact ⟨h.1, h.2.1 "zzz" (by decide), h.2.2.1 "$2b$12$oops" (by decide)
    (by decide),
    h.2.2.2 "$2b$12$5$1.2" { salt := 5, digest := [1, 2] } (by decide)
      (by decide)⟩

/-- C6 counterexample: the claim quantifies over every TTL, but for the TTL
override of -1 second the token's `exp` is already past at the issue
instant, so immediate verification fails with the expired kind rather than
succeeding. -/
theorem c6_counterexample :
    decode_access_token "k" 1000
      (create_access_token "k" 1000 "user-1" (some (-1)))
      = .error .expired := by
  decide

/-- C6 (amended): for every subject, verifying a token immediately after
issuing it succeeds — with `sub` the subject, `type` equal to `access`, and
`exp` equal to the issue time plus the effective TTL — whenever the
effective TTL is non-negative.  The effective TTL is the override when one
is supplied and truthy (the source tests `if expires_delta:`, under which a
zero timedelta is falsy), and the configured default of 1440 minutes
otherwise (no override, or a zero override). -/
theorem c6_issue_then_verify (secret subject : String) (now : Int)
    (expires_delta : Option Int)
    (h : 0 ≤ (if pyTruthyDelta expires_delta then expires_delta.getD 0
              else ACCESS_TOKEN_EXPIRE_MINUTES * 60)) :
    decode_access_token secret now
      (create_access_token secret now subject expires_delta)
      = .ok { exp := now + (if pyTruthyDelta expires_delta
                then expires_delta.getD 0
                else ACCESS_TOKEN_EXPIRE_MINUTES * 60),
              iat := now, sub := subject, type := "access" } := by
  by_cases hpd : pyTruthyDelta expires_delta = true
  · have hd : 0 ≤ expires_delta.getD 0 := by simpa [hpd] using h
    have hexp : ¬ (now + expires_delta.getD 0 < now) := by omega
    simp [decode_access_token, create_access_token, hpd, hexp]
  · have hpd' : pyTruthyDelta expires_delta = false := by
      simpa using hpd
    have hexp : ¬ (now + ACCESS_TOKEN_EXPIRE_MINUTES * 60 < now) := by
      simp only [ACCESS_TOKEN_EXPIRE_MINUTES]
      omega
    simp [decode_access_token, create_access_token, hpd', hexp]

/-- C6 witness: the amended theorem evaluated at issue time 0 with no
override (default expiry), with a zero override (falsy, so the default
expiry again), and with a 60-second override. -/
theorem c6_issue_then_verify_witness :
    decode_access_token "k" 0 (create_access_token "k" 0 "u" none)
      = .ok { exp := 86400, iat := 0, sub := "u", type := "access" } ∧
    decode_access_token "k" 0 (create_access_token "k" 0 "u" (some 0))
      = .ok { exp := 86400, iat := 0, sub := "u", type := "access" } ∧
    decode_access_token "k" 0 (create_access_token "k" 0 "u" (some 60))
      = .ok { exp := 60, iat := 0, sub := "u", type := "access" } := by
  refine ⟨?_, ?_, ?_⟩
  · have h := c6_issue_then_verify "k" "u" 0 none (by decide)
    simpa [pyTruthyDelta, ACCESS_TOKEN_EXPIRE_MINUTES] using h
  · have h := c6_issue_then_verify "k" "u" 0 (some 0) (by decide)
    simpa [pyTruthyDelta, ACCESS_TOKEN_EXPIRE_MINUTES] using h
  · have h := c6_issue_then_verify "k" "u" 0 (some 60) (by decide)
    simpa [pyTruthyDelta, ACCESS_TOKEN_EXPIRE_MINUTES] using h

/-- C7: token verification fails with the expired kind for a token issued
with a TTL of -1 second; with the bad-signature kind when the signature does
not match the signed content; and with the malformed kind when the payload
does not parse as a claim set — and the three kinds are pairwise distinct,
so the caller can tell them apart. -/
theorem c7_verify_failure_kinds (secret subject : String) (now : Int)
    (token : SignedToken) :
    (decode_access_token secret now
        (create_access_token secret now subject (some (-1)))
        = .error .expired) ∧
    (token.alg = ALGORITHM →
      token.sig ≠ hmacSign secret token.alg token.claims →
      decode_access_token secret now token = .error .badSignature) ∧
    (token.alg = ALGORITHM → token.claims = none →
      token.sig = hmacSign secret token.alg token.claims →
      decode_access_token secret now token = .error .malformedPayload) ∧
    (JwtError.expired ≠ JwtError.badSignature ∧
      JwtError.expired ≠ JwtError.malformedPayload ∧
      JwtError.badSignature ≠ JwtError.malformedPayload) := by
  refine ⟨?_, ?_, ?_, by decide⟩
  · have hpd : pyTruthyDelta (some (-1)) = true := rfl
    have hexp : now + (-1) < now := by omega
    simp [decode_access_token, create_access_token, hpd, hexp]
  · intro halg hsig
    obtain ⟨alg, claims, sig⟩ := token
    simp only at halg hsig
    subst halg
    simp [decode_access_token, hsig]
  · intro halg hclaims hsig
    obtain ⟨alg, claims, sig⟩ := token
    simp only at halg hclaims hsig
    subst halg
    subst hclaims
    simp [decode_access_token, hsig]

/-- C7 witness: the three failure kinds produced at concrete tokens — an
immediately expired issue, a token whose signature is zeroed out, and a
correctly signed token with an unparseable payload. -/
theorem c7_verify_failure_kinds_witness :
    decode_access_token "k" 50
      (create_access_token "k" 50 "u" (some (-1))) = .error .expired ∧
    decode_access_token "k" 50
      { alg := "HS256",
        claims := some { exp := 100, iat := 0, sub := "u", type := "access" },
        sig := 0 } = .error .badSignature ∧
    decode_access_token "k" 50
      { alg := "HS256", claims := none, sig := hmacSign "k" "HS256" none }
      = .error .malformedPayload := by
  refine ⟨(c7_verify_failure_kinds "k" "u" 50
      { alg := "HS256", claims := none, sig := 0 }).1, ?_, ?_⟩
  · exact (c7_verify_failure_kinds "k" "u" 50
      { alg := "HS256",
        claims := some { exp := 100, iat := 0, sub := "u", type := "access" },
        sig := 0 }).2.1 rfl (by decide)
  · exact (c7_verify_failure_kinds "k" "u" 50
      { alg := "HS256", claims := none,
        sig := hmacSign "k" "HS256" none }).2.2.1 rfl rfl rfl

/-! ## Auth facade theorems -/

/-- C1: the login path returns the null result — with no distinguishing
error — in each of the three mismatch cases: no user carries the email, every
user carrying the email is inactive, and the resolved active user's stored
credential does not verify.  All three outcomes are the same `none`, so they
are indistinguishable to the caller. -/
theorem c1_login_mismatch_null (vp : String → Option String → Bool)
    (db : Db) (email password : String) :
    ((∀ u ∈ db, u.email ≠ email) →
      authenticate_user vp db email password = none) ∧
    ((∀ u ∈ db, u.email = email → u.is_active = false) →
      authenticate_user vp db email password = none) ∧
    (∀ u, get_active_by_email db email = some u →
      vp password u.hashed_password = false →
      authenticate_user vp db email password = none) := by
  refine ⟨?_, ?_, ?_⟩
  · intro h
    have hnone : get_active_by_email db email = none := by
      unfold get_active_by_email
      rw [List.find?_eq_none]
      intro u hu
      simp only [Bool.and_eq_true, beq_iff_eq, not_and]
      intro he
      exact absurd he (h u hu)
    simp [authenticate_user, hnone]
  · intro h
    have hnone : get_active_by_email db email = none := by
      unfold get_active_by_email
      rw [List.find?_eq_none]
      intro u hu
      simp only [Bool.and_eq_true, beq_iff_eq, not_and]
      intro he ha
      rw [h u hu he] at ha
      exact Bool.false_ne_true ha
    simp [authenticate_user, hnone]
  · intro u hfind hvp
    simp [authenticate_user, hfind, hvp]

/-- C1 witness: the three mismatch cases evaluated on concrete databases —
unknown email, inactive account, and a credential checker that rejects. -/
theorem c1_login_mismatch_null_witness :
    authenticate_user (fun _ _ => false) dbActive "zz@x" "pw" = none ∧
    authenticate_user (fun _ _ => false) dbInactive "a@x" "pw" = none ∧
    authenticate_user (fun _ _ => false) dbActive "a@x" "pw" = none := by
  refine ⟨?_, ?_, ?_⟩
  · exact (c1_login_mismatch_null (fun _ _ => false) dbActive "zz@x" "pw").1
      (by decide)
  · exact (c1_login_mismatch_null (fun _ _ => false) dbInactive "a@x" "pw").2.1
      (by decide)
  · exact (c1_login_mismatch_null (fun _ _ => false) dbActive "a@x" "pw").2.2
      { id := 1, email := "a@x", hashed_password := some "h",
        full_name := none, is_active := true, is_superuser := false,
        oauth_provider := none, oauth_id := none, avatar_url := none }
      (by decide) rfl

/-! ## GitHub user-info theorems -/

/-- C8: the claim describes the intended email fallback, but the code reuses
the `httpx.AsyncClient` of an `async with` block that has already exited, so
whenever the GitHub `/user` response lacks an email the second call raises
(`RuntimeError: client has been closed`) instead of fetching the email list
— regardless of what the email-list endpoint would have answered.  When the
first response does carry an email, the normalization succeeds and coerces
GitHub's numeric id to a string. -/
theorem c8_github_email_fallback_crashes :
    get_user_info_github
        { id := 42, email := none, name := some "Octo",
          avatar_url := some "http://a/v" }
        [{ email := "octo@example.com", primary := true }]
      = .error .clientClosed ∧
    get_user_info_github
        { id := 42, email := none, name := some "Octo",
          avatar_url := some "http://a/v" } []
      = .error .clientClosed ∧
    get_user_info_github
        { id := 7, email := some "dev@example.com", name := none,
          avatar_url := none } []
      = .ok { id := "7", email := "dev@example.com", name := none,
              picture := none, provider := "github" } := by
  exact ⟨rfl, rfl, rfl⟩

/-! ## Unlink theorems -/

/-- An initial accumulator never exceeds the id-fold it seeds. -/
theorem le_foldl_max_id (db : Db) (a : Nat) :
    a ≤ db.foldl (fun b v => max b v.id) a := by
  induction db generalizing a with
  | nil => exact le_refl a
  | cons h t ih => exact le_trans (le_max_left a h.id) (ih (max a h.id))

/-- Every id in the session is bounded by the id-fold. -/
theorem mem_le_foldl_max_id (db : Db) (a : Nat) (u : User) (hu : u ∈ db) :
    u.id ≤ db.foldl (fun b v => max b v.id) a := by
  induction db generalizing a with
  | nil => cases hu
  | cons h t ih =>
    rcases List.mem_cons.mp hu with rfl | hmem
    · exact le_trans (le_max_right a u.id) (le_foldl_max_id t (max a u.id))
    · exact ih (max a h.id) hmem

/-- The fresh id of an insert is larger than every id already present. -/
theorem mem_id_lt_freshId (db : Db) (u : User) (hu : u ∈ db) :
    u.id < freshId db := by
  unfold freshId
  have := mem_le_foldl_max_id db 0 u hu
  omega

/-- Looking up a just-inserted row by its fresh primary key finds it. -/
theorem getUser_append_new (db : Db) (u : User)
    (hfresh : ∀ v ∈ db, v.id ≠ u.id) :
    getUser (db ++ [u]) u.id = some u := by
  unfold getUser
  induction db with
  | nil => simp
  | cons h t ih =>
    have hh : (h.id == u.id) = false := by
      simp only [beq_eq_false_iff_ne, ne_eq]
      exact hfresh h (List.mem_cons_self h t)
    rw [List.cons_append, List.find?_cons, hh]
    exact ih (fun v hv => hfresh v (List.mem_cons_of_mem h hv))

/-- C9: `unlink` fails with the user-not-found kind when the id does not
resolve; with the provider-not-linked kind when the linked provider differs
from the requested one; with the no-password kind when the stored credential
is absent (in particular for a user just created through the OAuth path,
which never sets a password); and otherwise clears `oauth_provider` and
`oauth_id` while leaving `avatar_url` unchanged. -/
theorem c9_unlink_cases (db : Db) (user_id : Nat) (provider : String) :
    (getUser db user_id = none →
      unlink_oauth_account db user_id provider = .error .userNotFound) ∧
    (∀ u, getUser db user_id = some u → u.oauth_provider ≠ some provider →
      unlink_oauth_account db user_id provider = .error .providerNotLinked) ∧
    (∀ u, getUser db user_id = some u → u.oauth_provider = some provider →
      pyTruthy u.hashed_password = false →
      unlink_oauth_account db user_id provider = .error .noPasswordSet) ∧
    (∀ u, getUser db user_id = some u → u.oauth_provider = some provider →
      pyTruthy u.hashed_password = true →
      ∃ u', unlink_oauth_account db user_id provider
          = .ok (u', replaceUser db u.id u') ∧
        u'.oauth_provider = none ∧ u'.oauth_id = none ∧
        u'.avatar_url = u.avatar_url ∧ u'.id = u.id) ∧
    (∀ em fn oi av,
      unlink_oauth_account (create_oauth_user db em fn provider oi av).2
        (freshId db) provider = .error .noPasswordSet) := by
  refine ⟨?_, ?_, ?_, ?_, ?_⟩
  · intro h
    simp [unlink_oauth_account, h]
  · intro u hu hp
    simp [unlink_oauth_account, hu, hp]
  · intro u hu hp hpw
    simp [unlink_oauth_account, hu, hp, hpw]
  · intro u hu hp hpw
    refine ⟨{ u with oauth_provider := none, oauth_id := none }, ?_,
      rfl, rfl, rfl, rfl⟩
    simp [unlink_oauth_account, hu, hp, hpw]
  · intro em fn oi av
    have hget : getUser (create_oauth_user db em fn provider oi av).2
        (freshId db)
        = some (create_oauth_user db em fn provider oi av).1 := by
      unfold create_oauth_user
      exact getUser_append_new db _
        (fun v hv => Nat.ne_of_lt (mem_id_lt_freshId db v hv))
    simp only [create_oauth_user] at hget
    simp [unlink_oauth_account, create_oauth_user, hget, pyTruthy]

/-- C9 witness: the five unlink cases evaluated on concrete databases. -/
theorem c9_unlink_cases_witness :
    unlink_oauth_account ([] : Db) 5 "github" = .error .userNotFound ∧
    unlink_oauth_account dbLinked 1 "google" = .error .providerNotLinked ∧
    unlink_oauth_account dbLinkedNoPw 1 "github" = .error .noPasswordSet ∧
    (∃ u', unlink_oauth_account dbLinked 1 "github"
        = .ok (u', replaceUser dbLinked 1 u') ∧
      u'.oauth_provider = none ∧ u'.oauth_id = none ∧
      u'.avatar_url = some "av" ∧ u'.id = 1) ∧
    unlink_oauth_account (create_oauth_user ([] : Db) "n@x" none "github"
        "42" none).2 (freshId ([] : Db)) "github" = .error .noPasswordSet := by
  refine ⟨(c9_unlink_cases ([] : Db) 5 "github").1 rfl, ?_, ?_, ?_, ?_⟩
  · exact (c9_unlink_cases dbLinked 1 "google").2.1
      (dbLinked.get ⟨0, by decide⟩) rfl (by decide)
  · exact (c9_unlink_cases dbLinkedNoPw 1 "github").2.2.1
      (dbLinkedNoPw.get ⟨0, by decide⟩) rfl rfl rfl
  · exact (c9_unlink_cases dbLinked 1 "github").2.2.2.1
      (dbLinked.get ⟨0, by decide⟩) rfl rfl rfl
  · exact (c9_unlink_cases ([] : Db) (freshId ([] : Db)) "github").2.2.2.2
      "n@x" none "42" none

/-! ## Frame theorems for link / unlink -/

/-- C10: a successful link modifies only `oauth_provider`, `oauth_id` and —
only when a picture is supplied — `avatar_url`; a successful unlink modifies
only `oauth_provider` and `oauth_id`.  For both, `email`, `hashed_password`,
`full_name`, `is_active`, `is_superuser` (and the primary key) of the target
record are unchanged, and unlink never changes `avatar_url`. -/
theorem c10_link_unlink_frame (db : Db) (user_id : Nat)
    (info : OAuth2UserInfo) (provider : String) :
    (∀ u u' db', getUser db user_id = some u →
      link_oauth_account db user_id info = .ok (u', db') →
      u'.id = u.id ∧ u'.email = u.email ∧
      u'.hashed_password = u.hashed_password ∧
      u'.full_name = u.full_name ∧ u'.is_active = u.is_active ∧
      u'.is_superuser = u.is_superuser ∧
      (pyTruthy info.picture = false → u'.avatar_url = u.avatar_url)) ∧
    (∀ u u' db', getUser db user_id = some u →
      unlink_oauth_account db user_id provider = .ok (u', db') →
      u'.id = u.id ∧ u'.email = u.email ∧
      u'.hashed_password = u.hashed_password ∧
      u'.full_name = u.full_name ∧ u'.is_active = u.is_active ∧
      u'.is_superuser = u.is_superuser ∧ u'.avatar_url = u.avatar_url) := by
  constructor
  · intro u u' db' hu hok
    unfold link_oauth_account at hok
    rw [hu] at hok
    dsimp only at hok
    have hu' : u' = applyLink u info := by
      cases hoauth : get_by_oauth db info.provider info.id with
      | none =>
        rw [hoauth] at hok
        injection hok with h
        exact (congrArg Prod.fst h).symm
      | some e =>
        rw [hoauth] at hok
        dsimp only at hok
        by_cases heid : (e.id != user_id) = true
        · rw [if_pos heid] at hok
          exact absurd hok (by simp)
        · rw [if_neg heid] at hok
          injection hok with h
          exact (congrArg Prod.fst h).symm
    subst hu'
    refine ⟨rfl, rfl, rfl, rfl, rfl, rfl, ?_⟩
    intro hpic
    simp [applyLink, hpic]
  · intro u u' db' hu hok
    unfold unlink_oauth_account at hok
    rw [hu] at hok
    dsimp only at hok
    have hu' : u' = { u with oauth_provider := none, oauth_id := none } := by
      by_cases hp : (u.oauth_provider != some provider) = true
      · rw [if_pos hp] at hok
        exact absurd hok (by simp)
      · rw [if_neg hp] at hok
        by_cases hpw : (!(pyTruthy u.hashed_password)) = true
        · rw [if_pos hpw] at hok
          exact absurd hok (by simp)
        · rw [if_neg hpw] at hok
          injection hok with h
          exact (congrArg Prod.fst h).symm
    subst hu'
    exact ⟨rfl, rfl, rfl, rfl, rfl, rfl, rfl⟩

/-- C10 witness: the frame conditions evaluated on a concrete link (picture
absent) and a concrete unlink. -/
theorem c10_link_unlink_frame_witness :
    ((applyLink u0 infoNoPic).id = u0.id ∧
      (applyLink u0 infoNoPic).email = u0.email ∧
      (applyLink u0 infoNoPic).hashed_password = u0.hashed_password ∧
      (applyLink u0 infoNoPic).full_name = u0.full_name ∧
      (applyLink u0 infoNoPic).is_active = u0.is_active ∧
      (applyLink u0 infoNoPic).is_superuser = u0.is_superuser ∧
      (applyLink u0 infoNoPic).avatar_url = u0.avatar_url) ∧
    (({ u0 with oauth_provider := none, oauth_id := none } : User).email
        = u0.email ∧
      ({ u0 with oauth_provider := none, oauth_id := none } : User).avatar_url
        = u0.avatar_url) := by
  have hl := (c10_link_unlink_frame dbLinked 1 infoNoPic "github").1 u0
    (applyLink u0 infoNoPic)
    (replaceUser dbLinked u0.id (applyLink u0 infoNoPic)) rfl (by decide)
  have hu := (c10_link_unlink_frame dbLinked 1 infoNoPic "github").2 u0
    { u0 with oauth_provider := none, oauth_id := none }
    (replaceUser dbLinked u0.id
      { u0 with oauth_provider := none, oauth_id := none }) rfl (by decide)
  exact ⟨⟨hl.1, hl.2.1, hl.2.2.1, hl.2.2.2.1, hl.2.2.2.2.1, hl.2.2.2.2.2.1,
    hl.2.2.2.2.2.2 rfl⟩, ⟨hu.2.1, hu.2.2.2.2.2.2⟩⟩

/-! ## Reconciliation theorems -/

/-- C2: reconciliation proceeds in source order.  If a user already holds
the `(provider, id)` pair it is returned with the session unchanged.  Else,
if the email is present (truthy) and a user holds it, that user is linked in
place: provider and external id set, every other field except possibly
`avatar_url` kept, avatar overwritten exactly when a picture is supplied,
and the record count unchanged.  Else a new user is created with the info's
email, name, provider, external id and avatar, active, not superuser, and
without a password credential. -/
theorem c2_reconcile_cases (db : Db) (info : OAuth2UserInfo) :
    (∀ u, get_by_oauth db info.provider info.id = some u →
      authenticate_or_create_user db info = (u, db)) ∧
    (get_by_oauth db info.provider info.id = none → info.email ≠ "" →
      ∀ u, get_by_email db info.email = some u →
      ∃ u', authenticate_or_create_user db info
          = (u', replaceUser db u.id u') ∧
        (replaceUser db u.id u').length = db.length ∧
        u'.oauth_provider = some info.provider ∧
        u'.oauth_id = some info.id ∧
        u'.id = u.id ∧ u'.email = u.email ∧
        u'.hashed_password = u.hashed_password ∧
        u'.full_name = u.full_name ∧ u'.is_active = u.is_active ∧
        u'.is_superuser = u.is_superuser ∧
        (pyTruthy info.picture = true → u'.avatar_url = info.picture) ∧
        (pyTruthy info.picture = false → u'.avatar_url = u.avatar_url)) ∧
    (get_by_oauth db info.provider info.id = none →
      (info.email = "" ∨ get_by_email db info.email = none) →
      ∃ u', authenticate_or_create_user db info = (u', db ++ [u']) ∧
        u'.email = info.email ∧ u'.full_name = info.name ∧
        u'.oauth_provider = some info.provider ∧
        u'.oauth_id = some info.id ∧ u'.avatar_url = info.picture ∧
        u'.is_active = true ∧ u'.is_superuser = false ∧
        u'.hashed_password = none) := by
  refine ⟨?_, ?_, ?_⟩
  · intro u hu
    simp [authenticate_or_create_user, hu]
  · intro hnone hemail u hu
    have hne : (!(info.email == "")) = true := by
      simp only [Bool.not_eq_eq_eq_not, Bool.not_true, beq_eq_false_iff_ne,
        ne_eq]
      exact hemail
    refine ⟨applyLink u info, ?_, ?_, rfl, rfl, rfl, rfl, rfl, rfl, rfl,
      rfl, ?_, ?_⟩
    · simp [authenticate_or_create_user, hnone, hne, hu]
    · simp [replaceUser]
    · intro hpic
      simp [applyLink, hpic]
    · intro hpic
      simp [applyLink, hpic]
  · intro hnone hcase
    refine ⟨(create_oauth_user db info.email info.name info.provider info.id
      info.picture).1, ?_, rfl, rfl, rfl, rfl, rfl, rfl, rfl, rfl⟩
    rcases hcase with he | hge
    · simp [authenticate_or_create_user, hnone, he, create_oauth_user]
    · by_cases he : info.email = ""
      · simp [authenticate_or_create_user, hnone, he, create_oauth_user]
      · have hne : (!(info.email == "")) = true := by
          simp only [Bool.not_eq_eq_eq_not, Bool.not_true,
            beq_eq_false_iff_ne, ne_eq]
          exact he
        simp [authenticate_or_create_user, hnone, hne, hge, create_oauth_user]

/-- C2 witness: the three reconciliation cases evaluated on concrete
sessions — found by `(provider, id)`, linked by email, and created. -/
theorem c2_reconcile_cases_witness :
    authenticate_or_create_user dbLinked infoNoPic = (u0, dbLinked) ∧
    (∃ u', authenticate_or_create_user dbActive infoGoogle
        = (u', replaceUser dbActive 1 u') ∧
      (replaceUser dbActive 1 u').length = dbActive.length ∧
      u'.oauth_provider = some "google" ∧ u'.oauth_id = some "99" ∧
      u'.id = 1 ∧ u'.email = "a@x" ∧ u'.hashed_password = some "h" ∧
      u'.full_name = none ∧ u'.is_active = true ∧ u'.is_superuser = false ∧
      (pyTruthy infoGoogle.picture = true → u'.avatar_url = some "pic") ∧
      (pyTruthy infoGoogle.picture = false → u'.avatar_url = none)) ∧
    (∃ u', authenticate_or_create_user ([] : Db) infoNew
        = (u', [] ++ [u']) ∧
      u'.email = "c@x" ∧ u'.full_name = some "C" ∧
      u'.oauth_provider = some "google" ∧ u'.oauth_id = some "77" ∧
      u'.avatar_url = none ∧ u'.is_active = true ∧ u'.is_superuser = false ∧
      u'.hashed_password = none) := by
  refine ⟨?_, ?_, ?_⟩
  · exact (c2_reconcile_cases dbLinked infoNoPic).1 u0 (by decide)
  · exact (c2_reconcile_cases dbActive infoGoogle).2.1 (by decide)
      (by decide)
      { id := 1, email := "a@x", hashed_password := some "h",
        full_name := none, is_active := true, is_superuser := false,
        oauth_provider := none, oauth_id := none, avatar_url := none }
      (by decide)
  · exact (c2_reconcile_cases ([] : Db) infoNew).2.2 rfl (Or.inr rfl)

/-! ## Uniqueness of the `(oauth_provider, oauth_id)` pair -/

/-- When `u`'s pair is present, sharing a pair with `u` is holding that
pair. -/
theorem samePresentPair_of_fields (u v : User) (p i : String)
    (hp : u.oauth_provider = some p) (hi : u.oauth_id = some i) :
    samePresentPair u v = hasPair v p i := by
  simp [samePresentPair, hp, hi]

/-- Elimination for a shared present pair: both users carry the same
present provider and external id. -/
theorem samePresentPair_true_elim (u v : User)
    (h : samePresentPair u v = true) :
    ∃ p i, u.oauth_provider = some p ∧ u.oauth_id = some i ∧
      v.oauth_provider = some p ∧ v.oauth_id = some i := by
  unfold samePresentPair at h
  cases hup : u.oauth_provider with
  | none => rw [hup] at h; cases h
  | some p =>
    cases hui : u.oauth_id with
    | none => rw [hup, hui] at h; cases h
    | some i =>
      rw [hup, hui] at h
      unfold hasPair at h
      simp only [Bool.and_eq_true, beq_iff_eq] at h
      exact ⟨p, i, rfl, rfl, h.1, h.2⟩

/-- Introduction for a shared present pair. -/
theorem samePresentPair_intro (u v : User) (p i : String)
    (h1 : u.oauth_provider = some p) (h2 : u.oauth_id = some i)
    (h3 : v.oauth_provider = some p) (h4 : v.oauth_id = some i) :
    samePresentPair u v = true := by
  unfold samePresentPair hasPair
  rw [h1, h2, h3, h4]
  simp

/-- Sharing a present pair is a symmetric relation. -/
theorem samePresentPair_comm (u v : User) :
    samePresentPair u v = samePresentPair v u := by
  cases h1 : samePresentPair u v <;> cases h2 : samePresentPair v u <;>
    try rfl
  · obtain ⟨p, i, h3, h4, h5, h6⟩ := samePresentPair_true_elim v u h2
    rw [samePresentPair_intro u v p i h5 h6 h3 h4] at h1
    cases h1
  · obtain ⟨p, i, h3, h4, h5, h6⟩ := samePresentPair_true_elim u v h1
    rw [samePresentPair_intro v u p i h5 h6 h3 h4] at h2
    cases h2

/-- When `v`'s pair is present and `u` shares a pair with `v`, `u` holds
`v`'s pair. -/
theorem hasPair_of_samePresentPair (u v : User) (p i : String)
    (hp : v.oauth_provider = some p) (hi : v.oauth_id = some i)
    (h : samePresentPair u v = true) : hasPair u p i = true := by
  obtain ⟨q, j, h1, h2, h3, h4⟩ := samePresentPair_true_elim u v h
  rw [hp] at h3
  rw [hi] at h4
  obtain rfl : p = q := Option.some.inj h3
  obtain rfl : i = j := Option.some.inj h4
  unfold hasPair
  rw [h1, h2]
  simp

/-- Under the invariant, at most one row holds any given pair. -/
theorem holders_eq_of_oauthUnique (db : Db) (h : oauthUnique db)
    (p i : String) (v : User) (hv : v ∈ db) (w : User) (hw : w ∈ db)
    (hvp : hasPair v p i = true) (hwp : hasPair w p i = true) : v = w := by
  by_contra hne
  have hsym : Symmetric (fun a b : User => samePresentPair a b = false) := by
    intro a b hab
    rw [samePresentPair_comm]
    exact hab
  have hfalse := List.Pairwise.forall hsym h hv hw hne
  have hvf : v.oauth_provider = some p ∧ v.oauth_id = some i := by
    unfold hasPair at hvp
    simpa using hvp
  rw [samePresentPair_of_fields v w p i hvf.1 hvf.2, hwp] at hfalse
  cases hfalse

/-- A failed pair lookup means no row holds the pair. -/
theorem no_pair_of_get_by_oauth_none (db : Db) (p i : String)
    (h : get_by_oauth db p i = none) : ∀ v ∈ db, hasPair v p i = false := by
  intro v hv
  have := List.find?_eq_none.mp h v hv
  unfold hasPair
  simpa using this

/-- A successful pair lookup returns a member that holds the pair. -/
theorem get_by_oauth_eq_some (db : Db) (p i : String) (e : User)
    (h : get_by_oauth db p i = some e) : e ∈ db ∧ hasPair e p i = true := by
  unfold get_by_oauth at h
  refine ⟨List.mem_of_find?_eq_some h, ?_⟩
  have := List.find?_some h
  unfold hasPair
  exact this

/-- A successful id lookup returns a member with that id. -/
theorem getUser_eq_some (db : Db) (uid : Nat) (u : User)
    (h : getUser db uid = some u) : u ∈ db ∧ u.id = uid := by
  refine ⟨List.mem_of_find?_eq_some h, ?_⟩
  have := List.find?_some h
  simpa using this

/-- Updating the one row with id `uid` to a row holding `(p, i)` keeps the
invariant, provided only rows with id `uid` held `(p, i)` before. -/
theorem replace_preserves_unique (db : Db) (uid : Nat) (newu : User)
    (p i : String) (hsame : oauthUnique db) (hids : idsUnique db)
    (hnp : newu.oauth_provider = some p) (hni : newu.oauth_id = some i)
    (hno : ∀ v ∈ db, hasPair v p i = true → v.id = uid) :
    oauthUnique (replaceUser db uid newu) := by
  unfold oauthUnique replaceUser
  rw [List.pairwise_map]
  refine List.Pairwise.imp_of_mem ?_ (hsame.and hids)
  intro a b ha hb hab
  obtain ⟨habs, habid⟩ := hab
  by_cases hA : (a.id == uid) = true <;> by_cases hB : (b.id == uid) = true
  · exact absurd (by
      have h1 : a.id = uid := by simpa using hA
      have h2 : b.id = uid := by simpa using hB
      rw [h1, h2]) habid
  · rw [if_pos hA, if_neg hB]
    rw [samePresentPair_of_fields newu b p i hnp hni]
    cases hbp : hasPair b p i with
    | false => rfl
    | true =>
      exact absurd (by simpa using hB) (by simp [hno b hb hbp])
  · rw [if_neg hA, if_pos hB]
    cases hap : samePresentPair a newu with
    | false => rfl
    | true =>
      have := hasPair_of_samePresentPair a newu p i hnp hni hap
      exact absurd (by simpa using hA) (by simp [hno a ha this])
  · rw [if_neg hA, if_neg hB]
    exact habs

/-- Clearing the pair of the row with id `uid` keeps the invariant. -/
theorem replace_clear_preserves_unique (db : Db) (uid : Nat) (newu : User)
    (hsame : oauthUnique db) (hnp : newu.oauth_provider = none) :
    oauthUnique (replaceUser db uid newu) := by
  unfold oauthUnique replaceUser
  rw [List.pairwise_map]
  refine List.Pairwise.imp_of_mem ?_ hsame
  intro a b ha hb hab
  by_cases hA : (a.id == uid) = true <;> by_cases hB : (b.id == uid) = true
  · rw [if_pos hA, if_pos hB]
    simp [samePresentPair, hnp]
  · rw [if_pos hA, if_neg hB]
    simp [samePresentPair, hnp]
  · rw [if_neg hA, if_pos hB]
    unfold samePresentPair
    cases a.oauth_provider <;> cases a.oauth_id <;> simp [hasPair, hnp]
  · rw [if_neg hA, if_neg hB]
    exact hab

/-- Appending a row holding `(p, i)` keeps the invariant when no existing
row holds `(p, i)`. -/
theorem append_preserves_unique (db : Db) (newu : User) (p i : String)
    (hsame : oauthUnique db)
    (hnp : newu.oauth_provider = some p) (hni : newu.oauth_id = some i)
    (hno : ∀ v ∈ db, hasPair v p i = false) :
    oauthUnique (db ++ [newu]) := by
  unfold oauthUnique
  rw [List.pairwise_append]
  refine ⟨hsame, List.pairwise_singleton _ _, ?_⟩
  intro a ha b hb
  rw [List.mem_singleton.mp hb]
  cases hap : samePresentPair a newu with
  | false => rfl
  | true =>
    have := hasPair_of_samePresentPair a newu p i hnp hni hap
    rw [hno a ha] at this
    cases this

/-- C3: starting from a session where no two rows share a present
`(oauth_provider, oauth_id)` pair (and primary keys are distinct),
reconciliation, a successful link, and a successful unlink each preserve the
uniqueness; and when a different user already holds the pair, `link` fails
with the already-linked-elsewhere kind — it never reassigns the pair. -/
theorem c3_pair_uniqueness (db : Db) (info : OAuth2UserInfo)
    (user_id : Nat) (provider : String)
    (hsame : oauthUnique db) (hids : idsUnique db) :
    oauthUnique (authenticate_or_create_user db info).2 ∧
    (∀ u' db', link_oauth_account db user_id info = .ok (u', db') →
      oauthUnique db') ∧
    (∀ u' db', unlink_oauth_account db user_id provider = .ok (u', db') →
      oauthUnique db') ∧
    (∀ u other, getUser db user_id = some u →
      get_by_oauth db info.provider info.id = some other →
      other.id ≠ user_id →
      link_oauth_account db user_id info
        = .error .alreadyLinkedElsewhere) := by
  refine ⟨?_, ?_, ?_, ?_⟩
  · unfold authenticate_or_create_user
    cases hoauth : get_by_oauth db info.provider info.id with
    | some u => exact hsame
    | none =>
      have hno := no_pair_of_get_by_oauth_none db info.provider info.id
        hoauth
      dsimp only
      cases hm : (if !(info.email == "") then get_by_email db info.email
          else none) with
      | some u =>
        dsimp only
        exact replace_preserves_unique db u.id (applyLink u info)
          info.provider info.id hsame hids rfl rfl
          (fun v hv hvp => absurd hvp (by simp [hno v hv]))
      | none =>
        dsimp only
        exact append_preserves_unique db _ info.provider info.id hsame
          rfl rfl hno
  · intro u' db' hok
    unfold link_oauth_account at hok
    cases hu : getUser db user_id with
    | none => rw [hu] at hok; cases hok
    | some u =>
      rw [hu] at hok
      dsimp only at hok
      obtain ⟨humem, huid⟩ := getUser_eq_some db user_id u hu
      cases hoauth : get_by_oauth db info.provider info.id with
      | none =>
        rw [hoauth] at hok
        dsimp only at hok
        injection hok with h
        injection h with h1 h2
        subst h2
        have hno := no_pair_of_get_by_oauth_none db info.provider info.id
          hoauth
        exact replace_preserves_unique db u.id (applyLink u info)
          info.provider info.id hsame hids rfl rfl
          (fun v hv hvp => absurd hvp (by simp [hno v hv]))
      | some e =>
        rw [hoauth] at hok
        dsimp only at hok
        by_cases heid : (e.id != user_id) = true
        · rw [if_pos heid] at hok; cases hok
        · rw [if_neg heid] at hok
          injection hok with h
          injection h with h1 h2
          subst h2
          obtain ⟨hemem, hep⟩ := get_by_oauth_eq_some db info.provider
            info.id e hoauth
          have heid' : e.id = user_id := by
            simpa using heid
          refine replace_preserves_unique db u.id (applyLink u info)
            info.provider info.id hsame hids rfl rfl ?_
          intro v hv hvp
          have hv_eq_e := holders_eq_of_oauthUnique db hsame info.provider
            info.id v hv e hemem hvp hep
          rw [hv_eq_e, heid', huid]
  · intro u' db' hok
    unfold unlink_oauth_account at hok
    cases hu : getUser db user_id with
    | none => rw [hu] at hok; cases hok
    | some u =>
      rw [hu] at hok
      dsimp only at hok
      by_cases hp : (u.oauth_provider != some provider) = true
      · rw [if_pos hp] at hok; cases hok
      · rw [if_neg hp] at hok
        by_cases hpw : (!(pyTruthy u.hashed_password)) = true
        · rw [if_pos hpw] at hok; cases hok
        · rw [if_neg hpw] at hok
          injection hok with h
          injection h with h1 h2
          subst h2
          exact replace_clear_preserves_unique db u.id _ hsame rfl
  · intro u other hu hoauth hne
    unfold link_oauth_account
    rw [hu]
    dsimp only
    rw [hoauth]
    dsimp only
    rw [if_pos (by simpa using hne)]

/-- C3 witness: on the concrete session `dbPair`, reconciliation of a fresh
identity, a successful link and a successful unlink preserve the invariant,
and linking a pair held by user 2 onto user 1 fails with the
already-linked-elsewhere kind. -/
theorem c3_pair_uniqueness_witness :
    oauthUnique (authenticate_or_create_user dbPair infoFree).2 ∧
    oauthUnique (replaceUser dbPair 1
      (applyLink (dbPair.get ⟨0, by decide⟩) infoFree)) ∧
    oauthUnique (replaceUser dbLinked 1
      { u0 with oauth_provider := none, oauth_id := none }) ∧
    link_oauth_account dbPair 1 infoTaken
      = .error .alreadyLinkedElsewhere := by
  refine ⟨?_, ?_, ?_, ?_⟩
  · exact (c3_pair_uniqueness dbPair infoFree 1 "github" (by decide)
      (by decide)).1
  · exact (c3_pair_uniqueness dbPair infoFree 1 "github" (by decide)
      (by decide)).2.1 (applyLink (dbPair.get ⟨0, by decide⟩) infoFree)
      (replaceUser dbPair 1 (applyLink (dbPair.get ⟨0, by decide⟩) infoFree))
      (by decide)
  · exact (c3_pair_uniqueness dbLinked infoFree 1 "github" (by decide)
      (by decide)).2.2.1 { u0 with oauth_provider := none, oauth_id := none }
      (replaceUser dbLinked 1
        { u0 with oauth_provider := none, oauth_id := none }) (by decide)
  · exact (c3_pair_uniqueness dbPair infoTaken 1 "github" (by decide)
      (by decide)).2.2.2 (dbPair.get ⟨0, by decide⟩)
      (dbPair.get ⟨1, by decide⟩) (by decide) (by decide) (by decide)

end TodoAuth
